import Mathlib

/-!
Shallow embedding of the Water ATM management system (src/Water_ATM.c).

The embedding models the core pricing, discount, fee, pass and ledger logic
of the C program.  Monetary amounts (C `double`) are modelled as rationals,
timestamps (C `time_t`) as integers.  The state focuses on one user record
(the C program keys users by id; every operation below touches a single
user) together with the global transaction ledger and analytics counters.
Display-only text fields (`name`, `phone`) are omitted.
-/

namespace WaterATM

/-- Payment methods accepted by the kiosk (C `payment_choice` 1 / 2). -/
inductive PaymentMethod
  | Cash
  | Digital
  deriving DecidableEq, Repr

/-- Pass kinds sold by the kiosk (C `pass_type` 1 / 2). -/
inductive PassType
  | Weekly
  | Monthly
  deriving DecidableEq, Repr

/-- Typed error outcomes of the core operations (the C program prints a
message and returns early at the corresponding points). -/
inductive AtmError
  | UserNotFound
  | InvalidQuantity
  | InvalidAmount
  | InvalidPaymentMethod
  | InvalidPassType
  | InsufficientFunds
  deriving DecidableEq, Repr

/-- Embedding of the C `User` struct (display-only `name`/`phone` omitted). -/
structure User where
  user_id : ℤ
  wallet_balance : ℚ
  total_spent : ℚ
  transaction_count : ℕ
  loyalty_points : ℤ
  has_weekly_pass : Bool
  has_monthly_pass : Bool
  pass_expiry : ℤ
  is_student : Bool
  deriving DecidableEq, Repr

/-- Embedding of the C `Transaction` struct. -/
structure Transaction where
  transaction_id : ℕ
  user_id : ℤ
  amount : ℚ
  liters : ℚ
  payment_method : PaymentMethod
  fee_charged : ℚ
  discount_applied : ℚ
  timestamp : ℤ
  deriving DecidableEq, Repr

/-- Embedding of the C `Analytics` struct (the global `stats`). -/
structure Analytics where
  total_revenue : ℚ
  total_fees_collected : ℚ
  total_discounts_given : ℚ
  cash_transactions : ℕ
  digital_transactions : ℕ
  bulk_purchases : ℕ
  pass_holders : ℕ
  deriving DecidableEq, Repr

/-- Global state: the user record under consideration, the analytics
counters and the transaction ledger (the C `transactions` array together
with `transaction_count` is modelled as a list whose length is the count). -/
structure AtmState where
  user : User
  stats : Analytics
  transactions : List Transaction
  deriving DecidableEq, Repr

def WATER_PRICE_PER_LITER : ℚ := 2

def DIGITAL_FEE : ℚ := 1

def MIN_BULK_LITERS : ℚ := 10

def LOYALTY_THRESHOLD : ℚ := 50

def WEEKLY_PASS_COST : ℚ := 15

def MONTHLY_PASS_COST : ℚ := 50

def MAX_TRANSACTIONS : ℕ := 5000

/-- The C cast `(int)x` of a `double`: truncation toward zero. -/
def truncToInt (q : ℚ) : ℤ :=
  if q < 0 then -Int.floor (-q) else Int.floor q

/-- C `calculate_bulk_discount` (lines 644-649). -/
def calculate_bulk_discount (liters : ℚ) : ℚ :=
  if liters ≥ 20 then 4
  else if liters ≥ 15 then 3
  else if liters ≥ 10 then 2
  else 0

/-- C `calculate_loyalty_discount` (lines 655-657): 5% of lifetime spend. -/
def calculate_loyalty_discount (user : User) : ℚ :=
  user.total_spent * (5 / 100)

/-- C `calculate_discount` (lines 613-638).  Returns the total discount and
the user record, which is mutated in place by point redemption. -/
def calculate_discount (user : User) (liters : ℚ) : ℚ × User :=
  let discount : ℚ := 0
  let discount :=
    if user.is_student then
      discount + liters * WATER_PRICE_PER_LITER * (10 / 100)
    else discount
  let discount :=
    if liters ≥ MIN_BULK_LITERS then discount + calculate_bulk_discount liters
    else discount
  let discount :=
    if user.total_spent ≥ LOYALTY_THRESHOLD then
      discount + calculate_loyalty_discount user
    else discount
  if user.loyalty_points ≥ 100 then
    (discount + 5, { user with loyalty_points := user.loyalty_points - 100 })
  else
    (discount, user)

/-- C `is_pass_valid` (lines 665-672). -/
def is_pass_valid (user : User) (now : ℤ) : Bool :=
  (user.has_weekly_pass || user.has_monthly_pass) && decide (now < user.pass_expiry)

/-- C `update_loyalty_points` (lines 678-680): 1 point per whole rupee of
the amount, truncated by the C `(int)` cast. -/
def update_loyalty_points (user : User) (amount : ℚ) : User :=
  { user with loyalty_points := user.loyalty_points + truncToInt amount }

/-- C `save_transaction` (lines 686-702): silently drops the record when
the ledger already holds `MAX_TRANSACTIONS` entries. -/
def save_transaction (st : AtmState) (uid : ℤ) (amount liters : ℚ)
    (method : PaymentMethod) (fee discount : ℚ) (now : ℤ) : AtmState :=
  if st.transactions.length ≥ MAX_TRANSACTIONS then st
  else
    { st with transactions := st.transactions ++
        [{ transaction_id := st.transactions.length + 1
           user_id := uid
           amount := amount
           liters := liters
           payment_method := method
           fee_charged := fee
           discount_applied := discount
           timestamp := now }] }

/-- The receipt the C program prints at the end of `purchase_water`. -/
structure Receipt where
  base_cost : ℚ
  discount : ℚ
  fee : ℚ
  final_amount : ℚ
  deriving DecidableEq, Repr

/-- Common tail of `purchase_water` (C lines 381-397): user statistics,
loyalty award, bulk counter, ledger append and global statistics. -/
def finalize_purchase (st : AtmState) (user : User) (stats : Analytics)
    (liters base_cost final_amount : ℚ) (method : PaymentMethod)
    (fee discount : ℚ) (now : ℤ) : AtmState × Except AtmError Receipt :=
  let user := { user with
    total_spent := user.total_spent + base_cost
    transaction_count := user.transaction_count + 1 }
  let user := update_loyalty_points user base_cost
  let stats :=
    if liters ≥ MIN_BULK_LITERS then
      { stats with bulk_purchases := stats.bulk_purchases + 1 }
    else stats
  let st := save_transaction { st with user := user, stats := stats }
    user.user_id final_amount liters method fee discount now
  let st := { st with stats := { st.stats with
    total_revenue := st.stats.total_revenue + base_cost
    total_fees_collected := st.stats.total_fees_collected + fee
    total_discounts_given := st.stats.total_discounts_given + discount } }
  (st, Except.ok
    { base_cost := base_cost, discount := discount, fee := fee,
      final_amount := final_amount })

/-- The digital-fee optimization block of `purchase_water` (C lines
347-360), reached only when the user has no valid pass: bulk waiver, then
discount absorption, then partial absorption clamped at zero. -/
def digital_fee_for (liters discount : ℚ) : ℚ :=
  if liters ≥ MIN_BULK_LITERS then 0
  else if discount ≥ DIGITAL_FEE then 0
  else
    let f := DIGITAL_FEE - discount
    if f < 0 then 0 else f

/-- C `purchase_water` (lines 285-418).  Returns the post-call global state
(the C mutates through pointers, so a failed call can still leave the
discount engine's point redemption in place) and the receipt or error. -/
def purchase_water (st : AtmState) (liters : ℚ) (method : PaymentMethod)
    (now : ℤ) : AtmState × Except AtmError Receipt :=
  if liters ≤ 0 then (st, Except.error AtmError.InvalidQuantity)
  else
    let base_cost := liters * WATER_PRICE_PER_LITER
    match method with
    | PaymentMethod.Cash =>
      let r := calculate_discount st.user liters
      let discount := r.1
      let user := r.2
      let final_amount := base_cost - discount
      let stats := { st.stats with
        cash_transactions := st.stats.cash_transactions + 1 }
      finalize_purchase st user stats liters base_cost final_amount
        PaymentMethod.Cash 0 discount now
    | PaymentMethod.Digital =>
      if is_pass_valid st.user now then
        let fee : ℚ := 0
        let discount : ℚ := 0
        let final_amount := base_cost - discount + fee
        if st.user.wallet_balance < final_amount then
          (st, Except.error AtmError.InsufficientFunds)
        else
          let user := { st.user with
            wallet_balance := st.user.wallet_balance - final_amount }
          let stats := { st.stats with
            digital_transactions := st.stats.digital_transactions + 1 }
          finalize_purchase st user stats liters base_cost final_amount
            PaymentMethod.Digital fee discount now
      else
        let r := calculate_discount st.user liters
        let discount := r.1
        let user := r.2
        let fee := digital_fee_for liters discount
        let final_amount := base_cost - discount + fee
        if user.wallet_balance < final_amount then
          ({ st with user := user }, Except.error AtmError.InsufficientFunds)
        else
          let user := { user with
            wallet_balance := user.wallet_balance - final_amount }
          let stats := { st.stats with
            digital_transactions := st.stats.digital_transactions + 1 }
          finalize_purchase st user stats liters base_cost final_amount
            PaymentMethod.Digital fee discount now

/-- Pass price, from the C branch at lines 449-458. -/
def pass_cost : PassType → ℚ
  | PassType.Weekly => WEEKLY_PASS_COST
  | PassType.Monthly => MONTHLY_PASS_COST

/-- Pass duration in days, from the C branch at lines 449-458. -/
def pass_days : PassType → ℤ
  | PassType.Weekly => 7
  | PassType.Monthly => 30

/-- C `purchase_pass` (lines 425-487). -/
def purchase_pass (st : AtmState) (pass_type : PassType) (now : ℤ) :
    AtmState × Option AtmError :=
  if st.user.wallet_balance < pass_cost pass_type then
    (st, some AtmError.InsufficientFunds)
  else
    let user := { st.user with
      wallet_balance := st.user.wallet_balance - pass_cost pass_type }
    let user :=
      match pass_type with
      | PassType.Weekly => { user with has_weekly_pass := true }
      | PassType.Monthly => { user with has_monthly_pass := true }
    let user := { user with
      pass_expiry := now + pass_days pass_type * 24 * 60 * 60 }
    let stats := { st.stats with pass_holders := st.stats.pass_holders + 1 }
    ({ st with user := user, stats := stats }, none)

/-- C `top_up_wallet` (lines 234-272): validation, credit, and the 2% bonus
for top-ups of at least 100. -/
def top_up_wallet (user : User) (amount : ℚ) : User × Option AtmError :=
  if amount ≤ 0 then (user, some AtmError.InvalidAmount)
  else
    let user := { user with wallet_balance := user.wallet_balance + amount }
    if amount ≥ 100 then
      let bonus := amount * (2 / 100)
      ({ user with wallet_balance := user.wallet_balance + bonus }, none)
    else (user, none)

/-- The receipt of a purchase result, when the purchase succeeded. -/
def result_receipt (x : AtmState × Except AtmError Receipt) : Option Receipt :=
  match x.2 with
  | Except.ok r => some r
  | Except.error _ => none

/-- The error of a purchase result, when the purchase failed. -/
def result_error (x : AtmState × Except AtmError Receipt) : Option AtmError :=
  match x.2 with
  | Except.ok _ => none
  | Except.error e => some e

/-- Revenue recomputed by folding the ledger: each record contributes its
base cost `liters * WATER_PRICE_PER_LITER`. -/
def ledger_revenue (ts : List Transaction) : ℚ :=
  (ts.map (fun t => t.liters * WATER_PRICE_PER_LITER)).sum

/-- Fees recomputed by folding the ledger. -/
def ledger_fees (ts : List Transaction) : ℚ :=
  (ts.map Transaction.fee_charged).sum

/-- Discounts recomputed by folding the ledger. -/
def ledger_discounts (ts : List Transaction) : ℚ :=
  (ts.map Transaction.discount_applied).sum

/-- Number of ledger records with the given payment method. -/
def ledger_method_count (ts : List Transaction) (m : PaymentMethod) : ℕ :=
  (ts.filter (fun t => decide (t.payment_method = m))).length

/-- The analytics fields named by the specification agree with the fold
over the full transaction ledger. -/
def ledger_consistent (st : AtmState) : Prop :=
  st.stats.total_revenue = ledger_revenue st.transactions ∧
  st.stats.total_fees_collected = ledger_fees st.transactions ∧
  st.stats.total_discounts_given = ledger_discounts st.transactions ∧
  st.stats.cash_transactions = ledger_method_count st.transactions PaymentMethod.Cash ∧
  st.stats.digital_transactions = ledger_method_count st.transactions PaymentMethod.Digital

/-- A freshly registered user (C `register_user`, lines 187-227): all
financial fields zero, no passes. -/
def fresh_user (uid : ℤ) (student : Bool) : User :=
  { user_id := uid
    wallet_balance := 0
    total_spent := 0
    transaction_count := 0
    loyalty_points := 0
    has_weekly_pass := false
    has_monthly_pass := false
    pass_expiry := 0
    is_student := student }

/-- The zero-initialised global `stats` (C line 82). -/
def initial_stats : Analytics :=
  { total_revenue := 0
    total_fees_collected := 0
    total_discounts_given := 0
    cash_transactions := 0
    digital_transactions := 0
    bulk_purchases := 0
    pass_holders := 0 }

/-- System start: a fresh user, zero statistics, empty ledger. -/
def initial_state (uid : ℤ) (student : Bool) : AtmState :=
  { user := fresh_user uid student
    stats := initial_stats
    transactions := [] }

/-- One purchase request as fed to `purchase_water`. -/
structure PurchaseRequest where
  liters : ℚ
  method : PaymentMethod
  now : ℤ
  deriving DecidableEq, Repr

/-- Run a sequence of purchase requests, keeping the post-call state of
each (successful or not). -/
def run_purchases (st : AtmState) : List PurchaseRequest → AtmState
  | [] => st
  | r :: rs => run_purchases (purchase_water st r.liters r.method r.now).1 rs

/-- Whether a purchase call succeeds. -/
def purchase_ok (st : AtmState) (liters : ℚ) (m : PaymentMethod) (now : ℤ) : Bool :=
  match (purchase_water st liters m now).2 with
  | Except.ok _ => true
  | Except.error _ => false

/-- Iterate 1-liter cash purchases. -/
def iterate_cash : ℕ → AtmState → AtmState
  | 0, st => st
  | n + 1, st => iterate_cash n (purchase_water st 1 PaymentMethod.Cash 0).1

/-- All purchases in an iterated 1-liter cash run succeed. -/
def cash_run_ok : ℕ → AtmState → Bool
  | 0, _ => true
  | n + 1, st =>
      purchase_ok st 1 PaymentMethod.Cash 0 &&
      cash_run_ok n (purchase_water st 1 PaymentMethod.Cash 0).1

/-- Successful purchases counted by the analytics. -/
def purchase_count (st : AtmState) : ℕ :=
  st.stats.cash_transactions + st.stats.digital_transactions

/-- Concrete scenario: a student holding a currently valid monthly pass. -/
def pass_student_user : User :=
  { user_id := 1
    wallet_balance := 100
    total_spent := 0
    transaction_count := 0
    loyalty_points := 0
    has_weekly_pass := false
    has_monthly_pass := true
    pass_expiry := 1000
    is_student := true }

/-- State for the pass-holder discount scenario. -/
def pass_student_state : AtmState :=
  { user := pass_student_user, stats := initial_stats, transactions := [] }

/-- Concrete scenario: an empty wallet but 150 redeemable loyalty points. -/
def points_user : User :=
  { user_id := 2
    wallet_balance := 0
    total_spent := 0
    transaction_count := 0
    loyalty_points := 150
    has_weekly_pass := false
    has_monthly_pass := false
    pass_expiry := 0
    is_student := false }

/-- State for the failed-purchase redemption scenario. -/
def points_state : AtmState :=
  { user := points_user, stats := initial_stats, transactions := [] }

/-- Concrete scenario: state after a fresh user cash-buys 500 liters. -/
def big_spender_state : AtmState :=
  (purchase_water (initial_state 3 false) 500 PaymentMethod.Cash 0).1

/-- Concrete scenario: a fresh user with a 100-rupee wallet. -/
def pass_buyer_state : AtmState :=
  { user := { fresh_user 4 false with wallet_balance := 100 }
    stats := initial_stats
    transactions := [] }

/-! ## Helper lemmas -/

theorem result_receipt_eq_some {x : AtmState × Except AtmError Receipt} {r : Receipt} :
    result_receipt x = some r ↔ x.2 = Except.ok r := by
  unfold result_receipt
  rcases x with ⟨a, e⟩
  cases e <;> simp

theorem result_error_eq_some {x : AtmState × Except AtmError Receipt} {e : AtmError} :
    result_error x = some e ↔ x.2 = Except.error e := by
  unfold result_error
  rcases x with ⟨a, e'⟩
  cases e' <;> simp

theorem calculate_discount_snd (user : User) (liters : ℚ) :
    (calculate_discount user liters).2 =
      if user.loyalty_points ≥ 100 then
        { user with loyalty_points := user.loyalty_points - 100 }
      else user := by
  by_cases h : user.loyalty_points ≥ 100 <;> simp [calculate_discount, h]

theorem calculate_discount_fst (user : User) (liters : ℚ) :
    (calculate_discount user liters).1 =
      (if user.is_student then liters * WATER_PRICE_PER_LITER * (10 / 100) else 0) +
      (if liters ≥ MIN_BULK_LITERS then calculate_bulk_discount liters else 0) +
      (if user.total_spent ≥ LOYALTY_THRESHOLD then calculate_loyalty_discount user else 0) +
      (if user.loyalty_points ≥ 100 then 5 else 0) := by
  by_cases h1 : user.is_student = true <;>
    by_cases h2 : liters ≥ MIN_BULK_LITERS <;>
    by_cases h3 : user.total_spent ≥ LOYALTY_THRESHOLD <;>
    by_cases h4 : user.loyalty_points ≥ 100 <;>
    simp [calculate_discount, h1, h2, h3, h4]

theorem finalize_purchase_snd (st : AtmState) (user : User) (stats : Analytics)
    (liters base fin : ℚ) (m : PaymentMethod) (fee disc : ℚ) (now : ℤ) :
    (finalize_purchase st user stats liters base fin m fee disc now).2 =
      Except.ok { base_cost := base, discount := disc, fee := fee, final_amount := fin } := by
  by_cases h1 : liters ≥ MIN_BULK_LITERS <;>
    by_cases h2 : st.transactions.length ≥ MAX_TRANSACTIONS <;>
    simp [finalize_purchase, save_transaction, update_loyalty_points, h1, h2]

theorem finalize_purchase_stats (st : AtmState) (user : User) (stats : Analytics)
    (liters base fin : ℚ) (m : PaymentMethod) (fee disc : ℚ) (now : ℤ) :
    (finalize_purchase st user stats liters base fin m fee disc now).1.stats =
      { total_revenue := stats.total_revenue + base
        total_fees_collected := stats.total_fees_collected + fee
        total_discounts_given := stats.total_discounts_given + disc
        cash_transactions := stats.cash_transactions
        digital_transactions := stats.digital_transactions
        bulk_purchases :=
          if liters ≥ MIN_BULK_LITERS then stats.bulk_purchases + 1
          else stats.bulk_purchases
        pass_holders := stats.pass_holders } := by
  by_cases h1 : liters ≥ MIN_BULK_LITERS <;>
    by_cases h2 : st.transactions.length ≥ MAX_TRANSACTIONS <;>
    simp [finalize_purchase, save_transaction, update_loyalty_points, h1, h2]

theorem finalize_purchase_transactions (st : AtmState) (user : User) (stats : Analytics)
    (liters base fin : ℚ) (m : PaymentMethod) (fee disc : ℚ) (now : ℤ) :
    (finalize_purchase st user stats liters base fin m fee disc now).1.transactions =
      if st.transactions.length ≥ MAX_TRANSACTIONS then st.transactions
      else st.transactions ++
        [{ transaction_id := st.transactions.length + 1
           user_id := user.user_id
           amount := fin
           liters := liters
           payment_method := m
           fee_charged := fee
           discount_applied := disc
           timestamp := now }] := by
  by_cases h1 : liters ≥ MIN_BULK_LITERS <;>
    by_cases h2 : st.transactions.length ≥ MAX_TRANSACTIONS <;>
    simp [finalize_purchase, save_transaction, update_loyalty_points, h1, h2]

theorem finalize_purchase_user (st : AtmState) (user : User) (stats : Analytics)
    (liters base fin : ℚ) (m : PaymentMethod) (fee disc : ℚ) (now : ℤ) :
    (finalize_purchase st user stats liters base fin m fee disc now).1.user =
      update_loyalty_points
        { user with
          total_spent := user.total_spent + base
          transaction_count := user.transaction_count + 1 } base := by
  by_cases h1 : liters ≥ MIN_BULK_LITERS <;>
    by_cases h2 : st.transactions.length ≥ MAX_TRANSACTIONS <;>
    simp [finalize_purchase, save_transaction, update_loyalty_points, h1, h2]

theorem bulk_discount_of_small {liters : ℚ} (h : liters < 10) :
    calculate_bulk_discount liters = 0 := by
  unfold calculate_bulk_discount
  rw [if_neg (by linarith), if_neg (by linarith), if_neg (by linarith)]

/-! ## Claim theorems -/

/-- Claim C6: the bulk-tier discount is an exact step function of liters:
liters ≥ 20 gives 4.00, 15 ≤ liters < 20 gives 3.00, 10 ≤ liters < 15
gives 2.00, liters < 10 gives 0; for a user with no other discount source
this is the whole engine discount; the boundary inputs 9.99, 10, 15, 20
yield 0, 2.00, 3.00, 4.00. -/
theorem atm_C6 (liters : ℚ) (user : User) :
    (liters ≥ 20 → calculate_bulk_discount liters = 4) ∧
    (15 ≤ liters ∧ liters < 20 → calculate_bulk_discount liters = 3) ∧
    (10 ≤ liters ∧ liters < 15 → calculate_bulk_discount liters = 2) ∧
    (liters < 10 → calculate_bulk_discount liters = 0) ∧
    (user.is_student = false → user.total_spent < LOYALTY_THRESHOLD →
      user.loyalty_points < 100 →
      (calculate_discount user liters).1 = calculate_bulk_discount liters) ∧
    calculate_bulk_discount (999 / 100) = 0 ∧
    calculate_bulk_discount 10 = 2 ∧
    calculate_bulk_discount 15 = 3 ∧
    calculate_bulk_discount 20 = 4 := by
  refine ⟨?_, ?_, ?_, ?_, ?_, ?_, ?_, ?_, ?_⟩
  · intro h
    unfold calculate_bulk_discount
    rw [if_pos (by linarith)]
  · rintro ⟨h1, h2⟩
    unfold calculate_bulk_discount
    rw [if_neg (by linarith), if_pos (by linarith)]
  · rintro ⟨h1, h2⟩
    unfold calculate_bulk_discount
    rw [if_neg (by linarith), if_neg (by linarith), if_pos (by linarith)]
  · exact fun h => bulk_discount_of_small h
  · intro h1 h2 h3
    rw [calculate_discount_fst]
    rcases le_or_lt (10 : ℚ) liters with hb | hb
    · simp [h1, not_le.mpr h2, not_le.mpr h3, MIN_BULK_LITERS, hb]
    · simp [h1, not_le.mpr h2, not_le.mpr h3, MIN_BULK_LITERS, not_le.mpr hb,
        bulk_discount_of_small hb]
  · norm_num [calculate_bulk_discount]
  · norm_num [calculate_bulk_discount]
  · norm_num [calculate_bulk_discount]
  · norm_num [calculate_bulk_discount]

/-- Witness for C6 at liters = 17. -/
theorem atm_C6_witness :
    (15 ≤ (17 : ℚ) ∧ (17 : ℚ) < 20) ∧ calculate_bulk_discount 17 = 3 :=
  ⟨⟨by norm_num, by norm_num⟩,
   (atm_C6 17 (fresh_user 1 false)).2.1 ⟨by norm_num, by norm_num⟩⟩

/-- Claim C8: top-up fails with InvalidAmount for every amount ≤ 0, leaving
the user unchanged; for every amount > 0 it credits the amount plus an
extra 2% of the topped-up amount exactly when amount ≥ 100; topping up 100
increases the balance by 102.00 and topping up 99.99 by exactly 99.99. -/
theorem atm_C8 (user : User) (amount : ℚ) :
    (amount ≤ 0 → top_up_wallet user amount = (user, some AtmError.InvalidAmount)) ∧
    (0 < amount →
      (top_up_wallet user amount).2 = none ∧
      (top_up_wallet user amount).1.wallet_balance =
        user.wallet_balance + amount +
          (if amount ≥ 100 then amount * (2 / 100) else 0)) ∧
    (top_up_wallet user 100).1.wallet_balance = user.wallet_balance + 102 ∧
    (top_up_wallet user (9999 / 100)).1.wallet_balance =
      user.wallet_balance + 9999 / 100 := by
  refine ⟨?_, ?_, ?_, ?_⟩
  · intro h
    simp [top_up_wallet, h]
  · intro h
    by_cases h2 : amount ≥ 100 <;>
      simp [top_up_wallet, not_le.mpr h, h2]
  · norm_num [top_up_wallet]
    ring
  · norm_num [top_up_wallet]

/-- Witness for C8 at amount = 50. -/
theorem atm_C8_witness :
    (0 : ℚ) < 50 ∧
    (top_up_wallet (fresh_user 9 false) 50).2 = none ∧
    (top_up_wallet (fresh_user 9 false) 50).1.wallet_balance =
      (fresh_user 9 false).wallet_balance + 50 +
        (if (50 : ℚ) ≥ 100 then 50 * (2 / 100) else 0) :=
  ⟨by norm_num, ((atm_C8 (fresh_user 9 false) 50).2.1 (by norm_num)).1,
   ((atm_C8 (fresh_user 9 false) 50).2.1 (by norm_num)).2⟩

/-- Claim C7: a successful pass purchase deducts the kind's cost (Weekly =
15.00, Monthly = 50.00) from the wallet, fails with InsufficientFunds (and
changes nothing) when the wallet cannot cover it, sets the expiry to
now + duration (7 or 30 days) overwriting any prior expiry, and increments
the pass-holder counter; buying Weekly then immediately Monthly leaves a
Monthly pass expiring 30 days from now. -/
theorem atm_C7 (st : AtmState) (k : PassType) (now : ℤ) :
    pass_cost PassType.Weekly = 15 ∧
    pass_cost PassType.Monthly = 50 ∧
    (st.user.wallet_balance < pass_cost k →
      purchase_pass st k now = (st, some AtmError.InsufficientFunds)) ∧
    (pass_cost k ≤ st.user.wallet_balance →
      (purchase_pass st k now).2 = none ∧
      (purchase_pass st k now).1.user.wallet_balance =
        st.user.wallet_balance - pass_cost k ∧
      (purchase_pass st k now).1.user.pass_expiry =
        now + pass_days k * 86400 ∧
      (purchase_pass st k now).1.stats.pass_holders =
        st.stats.pass_holders + 1) ∧
    ((purchase_pass (purchase_pass pass_buyer_state PassType.Weekly 0).1
        PassType.Monthly 0).1.user.has_monthly_pass = true ∧
     (purchase_pass (purchase_pass pass_buyer_state PassType.Weekly 0).1
        PassType.Monthly 0).1.user.pass_expiry = 30 * 86400) := by
  refine ⟨by norm_num [pass_cost, WEEKLY_PASS_COST],
    by norm_num [pass_cost, MONTHLY_PASS_COST], ?_, ?_, ?_⟩
  · intro h
    simp [purchase_pass, h]
  · intro h
    cases k <;>
      simp [purchase_pass, not_lt.mpr h, pass_days]
  · norm_num [purchase_pass, pass_buyer_state, fresh_user, pass_cost,
      pass_days, initial_stats, WEEKLY_PASS_COST, MONTHLY_PASS_COST]

/-- Witness for C7: a Weekly pass bought from a 100-rupee wallet. -/
theorem atm_C7_witness :
    pass_cost PassType.Weekly ≤ pass_buyer_state.user.wallet_balance ∧
    ((purchase_pass pass_buyer_state PassType.Weekly 0).2 = none ∧
     (purchase_pass pass_buyer_state PassType.Weekly 0).1.user.wallet_balance =
       pass_buyer_state.user.wallet_balance - pass_cost PassType.Weekly ∧
     (purchase_pass pass_buyer_state PassType.Weekly 0).1.user.pass_expiry =
       0 + pass_days PassType.Weekly * 86400 ∧
     (purchase_pass pass_buyer_state PassType.Weekly 0).1.stats.pass_holders =
       pass_buyer_state.stats.pass_holders + 1) :=
  ⟨by norm_num [pass_cost, pass_buyer_state, fresh_user, WEEKLY_PASS_COST],
   (atm_C7 pass_buyer_state PassType.Weekly 0).2.2.2.1
     (by norm_num [pass_cost, pass_buyer_state, fresh_user, WEEKLY_PASS_COST])⟩

/-- Claim C10: buying a pass sets the purchased kind's flag but never
clears the other kind's flag: after buying Weekly then Monthly both flags
remain set, and the single expiry field holds only the most recent pass's
expiry (now + 30 days). -/
theorem atm_C10 (st : AtmState) (now : ℤ) :
    (purchase_pass st PassType.Monthly now).1.user.has_weekly_pass =
      st.user.has_weekly_pass ∧
    (purchase_pass st PassType.Weekly now).1.user.has_monthly_pass =
      st.user.has_monthly_pass ∧
    (purchase_pass (purchase_pass pass_buyer_state PassType.Weekly 0).1
        PassType.Monthly 0).1.user.has_weekly_pass = true ∧
    (purchase_pass (purchase_pass pass_buyer_state PassType.Weekly 0).1
        PassType.Monthly 0).1.user.has_monthly_pass = true ∧
    (purchase_pass (purchase_pass pass_buyer_state PassType.Weekly 0).1
        PassType.Monthly 0).1.user.pass_expiry = 2592000 := by
  refine ⟨?_, ?_, ?_, ?_, ?_⟩
  · by_cases h : st.user.wallet_balance < pass_cost PassType.Monthly <;>
      simp [purchase_pass, h]
  · by_cases h : st.user.wallet_balance < pass_cost PassType.Weekly <;>
      simp [purchase_pass, h]
  · norm_num [purchase_pass, pass_buyer_state, fresh_user, pass_cost,
      pass_days, initial_stats, WEEKLY_PASS_COST, MONTHLY_PASS_COST]
  · norm_num [purchase_pass, pass_buyer_state, fresh_user, pass_cost,
      pass_days, initial_stats, WEEKLY_PASS_COST, MONTHLY_PASS_COST]
  · norm_num [purchase_pass, pass_buyer_state, fresh_user, pass_cost,
      pass_days, initial_stats, WEEKLY_PASS_COST, MONTHLY_PASS_COST]

/-- Counterexample to claim C1 as stated: a Digital purchase by a student
holding a valid pass succeeds with discount 0 — the discount engine, had it
been invoked, would have computed a 0.20 student discount, and nothing was
subtracted from baseCost (final amount equals the full base cost). -/
theorem atm_C1_counterexample :
    (calculate_discount pass_student_state.user 1).1 = 1 / 5 ∧
    result_receipt (purchase_water pass_student_state 1 PaymentMethod.Digital 0) =
      some { base_cost := 2, discount := 0, fee := 0, final_amount := 2 } ∧
    (purchase_water pass_student_state 1
        PaymentMethod.Digital 0).1.stats.total_discounts_given = 0 := by
  refine ⟨?_, ?_, ?_⟩ <;>
    norm_num [calculate_discount, calculate_bulk_discount,
      calculate_loyalty_discount, purchase_water, is_pass_valid,
      pass_student_state, pass_student_user, initial_stats,
      finalize_purchase, save_transaction, update_loyalty_points,
      truncToInt, result_receipt, MAX_TRANSACTIONS, WATER_PRICE_PER_LITER,
      MIN_BULK_LITERS, LOYALTY_THRESHOLD, DIGITAL_FEE]

/-- Claim C1 (amended): the discount engine is invoked and its full
discount subtracted from baseCost for every Cash purchase and for every
Digital purchase without a valid pass; a Digital purchase by a valid-pass
holder skips the engine and is charged the full base cost with discount 0. -/
theorem atm_C1_amended (st : AtmState) (liters : ℚ) (m : PaymentMethod)
    (now : ℤ) (r : Receipt)
    (h : result_receipt (purchase_water st liters m now) = some r) :
    r.base_cost = liters * WATER_PRICE_PER_LITER ∧
    (¬ (m = PaymentMethod.Digital ∧ is_pass_valid st.user now = true) →
      r.discount = (calculate_discount st.user liters).1 ∧
      r.final_amount = r.base_cost - r.discount + r.fee) ∧
    ((m = PaymentMethod.Digital ∧ is_pass_valid st.user now = true) →
      r.discount = 0 ∧ r.final_amount = r.base_cost) := by
  rw [result_receipt_eq_some] at h
  by_cases h0 : liters ≤ 0
  · simp [purchase_water, h0] at h
  · cases m with
    | Cash =>
      simp only [purchase_water, if_neg h0, finalize_purchase_snd] at h
      injection h with h2
      subst h2
      refine ⟨rfl, fun _ => ⟨rfl, by simp⟩, ?_⟩
      rintro ⟨hc, -⟩
      cases hc
    | Digital =>
      by_cases hp : is_pass_valid st.user now = true
      · simp only [purchase_water, if_neg h0, hp, if_true] at h
        split at h
        · simp at h
        · rw [finalize_purchase_snd] at h
          injection h with h2
          subst h2
          refine ⟨rfl, ?_, fun _ => ⟨rfl, by simp⟩⟩
          intro hc
          exact absurd ⟨rfl, hp⟩ hc
      · simp only [purchase_water, if_neg h0, if_neg hp] at h
        split at h
        · simp at h
        · rw [finalize_purchase_snd] at h
          injection h with h2
          subst h2
          refine ⟨rfl, fun _ => ⟨rfl, rfl⟩, ?_⟩
          rintro ⟨-, hc⟩
          exact absurd hc hp

/-- Witness for C1 (amended): a plain cash purchase of 5 liters. -/
theorem atm_C1_amended_witness :
    result_receipt (purchase_water (initial_state 7 false) 5
        PaymentMethod.Cash 0) =
      some { base_cost := 10, discount := 0, fee := 0, final_amount := 10 } ∧
    ¬ ((PaymentMethod.Cash = PaymentMethod.Digital ∧
        is_pass_valid (initial_state 7 false).user 0 = true)) ∧
    ({ base_cost := 10, discount := 0, fee := 0,
       final_amount := (10 : ℚ) } : Receipt).discount =
      (calculate_discount (initial_state 7 false).user 5).1 := by
  have hr : result_receipt (purchase_water (initial_state 7 false) 5
      PaymentMethod.Cash 0) =
      some { base_cost := 10, discount := 0, fee := 0, final_amount := 10 } := by
    norm_num [purchase_water, initial_state, fresh_user, initial_stats,
      calculate_discount, calculate_bulk_discount, calculate_loyalty_discount,
      finalize_purchase, save_transaction, update_loyalty_points, truncToInt,
      result_receipt, is_pass_valid, MAX_TRANSACTIONS, WATER_PRICE_PER_LITER,
      MIN_BULK_LITERS, LOYALTY_THRESHOLD]
  refine ⟨hr, by simp, ?_⟩
  exact ((atm_C1_amended (initial_state 7 false) 5 PaymentMethod.Cash 0
    _ hr).2.1 (by simp)).1

/-- Counterexample to claim C2 as stated: a Digital purchase that fails
with InsufficientFunds can still mutate the user — the discount engine has
already redeemed 100 loyalty points before the balance check. -/
theorem atm_C2_counterexample :
    result_error (purchase_water points_state 4 PaymentMethod.Digital 0) =
      some AtmError.InsufficientFunds ∧
    points_state.user.loyalty_points = 150 ∧
    (purchase_water points_state 4
        PaymentMethod.Digital 0).1.user.loyalty_points = 50 := by
  refine ⟨?_, rfl, ?_⟩ <;>
    norm_num [purchase_water, points_state, points_user, initial_stats,
      calculate_discount, calculate_bulk_discount, calculate_loyalty_discount,
      is_pass_valid, result_error, digital_fee_for, MAX_TRANSACTIONS,
      WATER_PRICE_PER_LITER, MIN_BULK_LITERS, LOYALTY_THRESHOLD, DIGITAL_FEE]

/-- Claim C2 (amended): when a Digital purchase fails with
InsufficientFunds, walletBalance, totalSpent, transactionCount, the ledger
and all analytics counters are unchanged; loyaltyPoints are unchanged too
unless the user had no valid pass and at least 100 points, in which case
the redemption performed during discount computation has already deducted
exactly 100 points and that deduction persists. -/
theorem atm_C2_amended (st : AtmState) (liters : ℚ) (now : ℤ)
    (h : result_error (purchase_water st liters PaymentMethod.Digital now) =
      some AtmError.InsufficientFunds) :
    (purchase_water st liters PaymentMethod.Digital now).1.user.wallet_balance =
      st.user.wallet_balance ∧
    (purchase_water st liters PaymentMethod.Digital now).1.user.total_spent =
      st.user.total_spent ∧
    (purchase_water st liters PaymentMethod.Digital now).1.user.transaction_count =
      st.user.transaction_count ∧
    (purchase_water st liters PaymentMethod.Digital now).1.transactions =
      st.transactions ∧
    (purchase_water st liters PaymentMethod.Digital now).1.stats = st.stats ∧
    (purchase_water st liters PaymentMethod.Digital now).1.user.loyalty_points =
      (if is_pass_valid st.user now = false ∧ st.user.loyalty_points ≥ 100
       then st.user.loyalty_points - 100
       else st.user.loyalty_points) := by
  rw [result_error_eq_some] at h
  by_cases h0 : liters ≤ 0
  · simp [purchase_water, h0] at h
  · by_cases hp : is_pass_valid st.user now = true
    · simp only [purchase_water, if_neg h0, hp, if_true] at h ⊢
      split at h
      · rename_i hw
        split
        · simp [hp]
        · rename_i hnw
          exact (hnw (by linarith)).elim
      · rw [finalize_purchase_snd] at h
        simp at h
    · simp only [purchase_water, if_neg h0, if_neg hp] at h ⊢
      split at h
      · rename_i hw
        simp only [Bool.not_eq_true] at hp
        split
        · rw [calculate_discount_snd]
          by_cases hq : st.user.loyalty_points ≥ 100 <;> simp [hq, hp]
        · rename_i hnw
          exact (hnw (by linarith)).elim
      · rw [finalize_purchase_snd] at h
        simp at h

/-- Witness for C2 (amended): the empty-wallet 150-point user. -/
theorem atm_C2_amended_witness :
    result_error (purchase_water points_state 4 PaymentMethod.Digital 0) =
      some AtmError.InsufficientFunds ∧
    ((purchase_water points_state 4
        PaymentMethod.Digital 0).1.user.wallet_balance =
      points_state.user.wallet_balance ∧
     (purchase_water points_state 4 PaymentMethod.Digital 0).1.user.total_spent =
      points_state.user.total_spent ∧
     (purchase_water points_state 4
        PaymentMethod.Digital 0).1.user.transaction_count =
      points_state.user.transaction_count ∧
     (purchase_water points_state 4 PaymentMethod.Digital 0).1.transactions =
      points_state.transactions ∧
     (purchase_water points_state 4 PaymentMethod.Digital 0).1.stats =
      points_state.stats ∧
     (purchase_water points_state 4
        PaymentMethod.Digital 0).1.user.loyalty_points =
      (if is_pass_valid points_state.user 0 = false ∧
          points_state.user.loyalty_points ≥ 100
       then points_state.user.loyalty_points - 100
       else points_state.user.loyalty_points)) := by
  have he : result_error (purchase_water points_state 4
      PaymentMethod.Digital 0) = some AtmError.InsufficientFunds := by
    norm_num [purchase_water, points_state, points_user, initial_stats,
      calculate_discount, calculate_bulk_discount, calculate_loyalty_discount,
      is_pass_valid, result_error, digital_fee_for, MAX_TRANSACTIONS,
      WATER_PRICE_PER_LITER, MIN_BULK_LITERS, LOYALTY_THRESHOLD, DIGITAL_FEE]
  exact ⟨he, atm_C2_amended points_state 4 0 he⟩

theorem digital_fee_for_eq_max (liters d : ℚ) :
    digital_fee_for liters d =
      if liters ≥ MIN_BULK_LITERS then 0
      else if d ≥ DIGITAL_FEE then 0
      else max 0 (DIGITAL_FEE - d) := by
  have hmax : (if DIGITAL_FEE - d < 0 then (0 : ℚ) else DIGITAL_FEE - d) =
      max 0 (DIGITAL_FEE - d) := by
    rcases lt_or_le (DIGITAL_FEE - d) 0 with h3 | h3
    · rw [if_pos h3, max_eq_left h3.le]
    · rw [if_neg (not_lt.mpr h3), max_eq_right h3]
  simp only [digital_fee_for]
  rw [hmax]

theorem digital_fee_for_nonneg (liters d : ℚ) :
    0 ≤ digital_fee_for liters d := by
  rw [digital_fee_for_eq_max]
  split
  · exact le_refl 0
  split
  · exact le_refl 0
  · exact le_max_left 0 _

/-- Claim C4: for every successful Digital purchase the fee follows the
priority order with the first matching rule winning — valid pass, then
bulk quantity, then full discount absorption, then partial absorption
max(0, 1.00 − discount) — the fee is never negative, and Cash purchases
always have fee 0. -/
theorem atm_C4 (st : AtmState) (liters : ℚ) (m : PaymentMethod) (now : ℤ)
    (r : Receipt)
    (h : result_receipt (purchase_water st liters m now) = some r) :
    (m = PaymentMethod.Cash → r.fee = 0) ∧
    (m = PaymentMethod.Digital →
      r.fee =
        (if is_pass_valid st.user now = true then 0
         else if liters ≥ MIN_BULK_LITERS then 0
         else if (calculate_discount st.user liters).1 ≥ DIGITAL_FEE then 0
         else max 0 (DIGITAL_FEE - (calculate_discount st.user liters).1))) ∧
    0 ≤ r.fee := by
  rw [result_receipt_eq_some] at h
  by_cases h0 : liters ≤ 0
  · simp [purchase_water, h0] at h
  · cases m with
    | Cash =>
      simp only [purchase_water, if_neg h0, finalize_purchase_snd] at h
      injection h with h2
      subst h2
      refine ⟨fun _ => rfl, ?_, le_refl 0⟩
      rintro hc
      cases hc
    | Digital =>
      by_cases hp : is_pass_valid st.user now = true
      · simp only [purchase_water, if_neg h0, hp, if_true] at h
        split at h
        · simp at h
        · rw [finalize_purchase_snd] at h
          injection h with h2
          subst h2
          refine ⟨fun hc => PaymentMethod.noConfusion hc, fun _ => ?_, le_refl 0⟩
          rw [if_pos hp]
      · simp only [purchase_water, if_neg h0, if_neg hp] at h
        split at h
        · simp at h
        · rw [finalize_purchase_snd] at h
          injection h with h2
          subst h2
          refine ⟨fun hc => PaymentMethod.noConfusion hc, fun _ => ?_,
            digital_fee_for_nonneg _ _⟩
          rw [if_neg hp, digital_fee_for_eq_max]

/-- Witness for C4: a successful 2-liter Digital purchase with no pass and
no discount pays the full 1.00 fee. -/
theorem atm_C4_witness :
    result_receipt (purchase_water pass_buyer_state 2 PaymentMethod.Digital 0) =
      some { base_cost := 4, discount := 0, fee := 1, final_amount := 5 } ∧
    (0 : ℚ) ≤
      ({ base_cost := 4, discount := 0, fee := 1,
         final_amount := (5 : ℚ) } : Receipt).fee := by
  have hr : result_receipt (purchase_water pass_buyer_state 2
      PaymentMethod.Digital 0) =
      some { base_cost := 4, discount := 0, fee := 1, final_amount := 5 } := by
    norm_num [purchase_water, pass_buyer_state, fresh_user, initial_stats,
      calculate_discount, calculate_bulk_discount, calculate_loyalty_discount,
      is_pass_valid, finalize_purchase, save_transaction,
      update_loyalty_points, truncToInt, digital_fee_for, result_receipt,
      MAX_TRANSACTIONS, WATER_PRICE_PER_LITER, MIN_BULK_LITERS,
      LOYALTY_THRESHOLD, DIGITAL_FEE]
  exact ⟨hr, (atm_C4 pass_buyer_state 2 PaymentMethod.Digital 0 _ hr).2.2⟩

/-- Claim C5: whenever the discount engine runs with at least 100 loyalty
points it adds a flat 5.00 to the discount and deducts exactly 100 points,
at most once even with 200 or more points; on every successful purchase,
regardless of payment method, floor(baseCost) points are then awarded on
top of the post-redemption balance. -/
theorem atm_C5 (user : User) (st : AtmState) (liters : ℚ)
    (m : PaymentMethod) (now : ℤ) (r : Receipt) :
    (user.loyalty_points ≥ 100 →
      (calculate_discount user liters).1 =
        (calculate_discount { user with loyalty_points := 0 } liters).1 + 5 ∧
      (calculate_discount user liters).2.loyalty_points =
        user.loyalty_points - 100) ∧
    (result_receipt (purchase_water st liters m now) = some r →
      (¬ (m = PaymentMethod.Digital ∧ is_pass_valid st.user now = true) →
        (purchase_water st liters m now).1.user.loyalty_points =
          (calculate_discount st.user liters).2.loyalty_points +
            truncToInt (liters * WATER_PRICE_PER_LITER)) ∧
      ((m = PaymentMethod.Digital ∧ is_pass_valid st.user now = true) →
        (purchase_water st liters m now).1.user.loyalty_points =
          st.user.loyalty_points + truncToInt (liters * WATER_PRICE_PER_LITER))) := by
  constructor
  · intro h100
    constructor
    · rw [calculate_discount_fst, calculate_discount_fst]
      simp [h100, calculate_loyalty_discount]
    · rw [calculate_discount_snd]
      simp [h100]
  · intro h
    rw [result_receipt_eq_some] at h
    by_cases h0 : liters ≤ 0
    · simp [purchase_water, h0] at h
    · cases m with
      | Cash =>
        simp only [purchase_water, if_neg h0, finalize_purchase_user] at h ⊢
        constructor
        · intro _
          simp [update_loyalty_points]
        · rintro ⟨hc, -⟩
          cases hc
      | Digital =>
        by_cases hp : is_pass_valid st.user now = true
        · simp only [purchase_water, if_neg h0] at h ⊢
          rw [if_pos hp] at h ⊢
          split at h
          · simp at h
          · rename_i hnw
            rw [if_neg hnw, finalize_purchase_user]
            constructor
            · intro hc
              exact absurd hp (by simpa using hc)
            · intro _
              simp [update_loyalty_points]
        · simp only [purchase_water, if_neg h0, if_neg hp] at h ⊢
          split at h
          · simp at h
          · rename_i hnw
            rw [if_neg hnw, finalize_purchase_user]
            constructor
            · intro _
              simp [update_loyalty_points]
            · rintro ⟨-, hc⟩
              exact absurd hc hp

/-- Witness for C5: a cash purchase by the 150-point user redeems down to
50 points and then awards 8 points on the 8.00 base cost. -/
theorem atm_C5_witness :
    points_user.loyalty_points ≥ 100 ∧
    (calculate_discount points_user 4).2.loyalty_points =
      points_user.loyalty_points - 100 ∧
    result_receipt (purchase_water points_state 4 PaymentMethod.Cash 0) =
      some { base_cost := 8, discount := 5, fee := 0, final_amount := 3 } ∧
    (purchase_water points_state 4 PaymentMethod.Cash 0).1.user.loyalty_points =
      (calculate_discount points_state.user 4).2.loyalty_points +
        truncToInt (4 * WATER_PRICE_PER_LITER) := by
  have h100 : points_user.loyalty_points ≥ 100 := by norm_num [points_user]
  have hr : result_receipt (purchase_water points_state 4 PaymentMethod.Cash 0) =
      some { base_cost := 8, discount := 5, fee := 0, final_amount := 3 } := by
    norm_num [purchase_water, points_state, points_user, initial_stats,
      calculate_discount, calculate_bulk_discount, calculate_loyalty_discount,
      finalize_purchase, save_transaction, update_loyalty_points, truncToInt,
      result_receipt, MAX_TRANSACTIONS, WATER_PRICE_PER_LITER,
      MIN_BULK_LITERS, LOYALTY_THRESHOLD]
  refine ⟨h100,
    ((atm_C5 points_user points_state 4 PaymentMethod.Cash 0
      { base_cost := 8, discount := 5, fee := 0, final_amount := 3 }).1 h100).2,
    hr, ?_⟩
  exact ((atm_C5 points_user points_state 4 PaymentMethod.Cash 0
    { base_cost := 8, discount := 5, fee := 0, final_amount := 3 }).2 hr).1
    (by simp)

/-- Claim C9: the 5% loyalty discount on unbounded lifetime spend makes a
negative final amount reachable — after one 500-liter cash purchase by a
fresh user, a 1-liter Digital purchase computes final amount −53, passes
the balance check with an empty wallet, succeeds, INCREASES the wallet
from 0 to 53, and records −53 in the ledger. -/
theorem atm_C9 :
    result_receipt (purchase_water big_spender_state 1 PaymentMethod.Digital 0) =
      some { base_cost := 2, discount := 55, fee := 0, final_amount := -53 } ∧
    big_spender_state.user.wallet_balance = 0 ∧
    (purchase_water big_spender_state 1
        PaymentMethod.Digital 0).1.user.wallet_balance = 53 ∧
    ((purchase_water big_spender_state 1
        PaymentMethod.Digital 0).1.transactions.map Transaction.amount) =
      [996, -53] := by
  refine ⟨?_, ?_, ?_, ?_⟩ <;>
    norm_num [big_spender_state, initial_state, fresh_user, initial_stats,
      purchase_water, finalize_purchase, calculate_discount,
      calculate_bulk_discount, calculate_loyalty_discount, is_pass_valid,
      update_loyalty_points, truncToInt, save_transaction, digital_fee_for,
      result_receipt, MAX_TRANSACTIONS, WATER_PRICE_PER_LITER,
      MIN_BULK_LITERS, LOYALTY_THRESHOLD, DIGITAL_FEE]

theorem ledger_revenue_append (ts : List Transaction) (t : Transaction) :
    ledger_revenue (ts ++ [t]) =
      ledger_revenue ts + t.liters * WATER_PRICE_PER_LITER := by
  simp [ledger_revenue]

theorem ledger_fees_append (ts : List Transaction) (t : Transaction) :
    ledger_fees (ts ++ [t]) = ledger_fees ts + t.fee_charged := by
  simp [ledger_fees]

theorem ledger_discounts_append (ts : List Transaction) (t : Transaction) :
    ledger_discounts (ts ++ [t]) = ledger_discounts ts + t.discount_applied := by
  simp [ledger_discounts]

theorem ledger_method_count_append (ts : List Transaction) (t : Transaction)
    (m : PaymentMethod) :
    ledger_method_count (ts ++ [t]) m =
      ledger_method_count ts m + (if t.payment_method = m then 1 else 0) := by
  simp only [ledger_method_count, List.filter_append, List.length_append]
  split <;> rename_i hm
  · simp [List.filter, hm]
  · simp [List.filter, hm]

theorem calculate_discount_user_id (user : User) (liters : ℚ) :
    (calculate_discount user liters).2.user_id = user.user_id := by
  rw [calculate_discount_snd]
  split <;> rfl

/-- Frame property of a failed purchase: the analytics and the ledger are
untouched (the user record may still have lost redeemed points). -/
theorem purchase_water_err_frame (st : AtmState) (liters : ℚ)
    (m : PaymentMethod) (now : ℤ) (e : AtmError)
    (h : (purchase_water st liters m now).2 = Except.error e) :
    (purchase_water st liters m now).1.stats = st.stats ∧
    (purchase_water st liters m now).1.transactions = st.transactions := by
  by_cases h0 : liters ≤ 0
  · simp [purchase_water, h0]
  · cases m with
    | Cash =>
      simp only [purchase_water, if_neg h0, finalize_purchase_snd] at h
      simp at h
    | Digital =>
      by_cases hp : is_pass_valid st.user now = true
      · simp only [purchase_water, if_neg h0] at h ⊢
        rw [if_pos hp] at h ⊢
        split at h
        · rename_i hw
          split
          · exact ⟨rfl, rfl⟩
          · rename_i hnw
            exact (hnw (by linarith)).elim
        · rw [finalize_purchase_snd] at h
          simp at h
      · simp only [purchase_water, if_neg h0, if_neg hp] at h ⊢
        split at h
        · rename_i hw
          split
          · exact ⟨rfl, rfl⟩
          · rename_i hnw
            exact (hnw (by linarith)).elim
        · rw [finalize_purchase_snd] at h
          simp at h

/-- Effect of a successful purchase on the analytics and the ledger. -/
theorem purchase_water_ok_spec (st : AtmState) (liters : ℚ)
    (m : PaymentMethod) (now : ℤ) (r : Receipt)
    (h : (purchase_water st liters m now).2 = Except.ok r) :
    (purchase_water st liters m now).1.stats.total_revenue =
      st.stats.total_revenue + liters * WATER_PRICE_PER_LITER ∧
    (purchase_water st liters m now).1.stats.total_fees_collected =
      st.stats.total_fees_collected + r.fee ∧
    (purchase_water st liters m now).1.stats.total_discounts_given =
      st.stats.total_discounts_given + r.discount ∧
    (purchase_water st liters m now).1.stats.cash_transactions =
      st.stats.cash_transactions +
        (if m = PaymentMethod.Cash then 1 else 0) ∧
    (purchase_water st liters m now).1.stats.digital_transactions =
      st.stats.digital_transactions +
        (if m = PaymentMethod.Digital then 1 else 0) ∧
    (purchase_water st liters m now).1.transactions =
      (if st.transactions.length ≥ MAX_TRANSACTIONS then st.transactions
       else st.transactions ++
        [{ transaction_id := st.transactions.length + 1
           user_id := st.user.user_id
           amount := r.final_amount
           liters := liters
           payment_method := m
           fee_charged := r.fee
           discount_applied := r.discount
           timestamp := now }]) := by
  by_cases h0 : liters ≤ 0
  · simp [purchase_water, h0] at h
  · cases m with
    | Cash =>
      simp only [purchase_water, if_neg h0, finalize_purchase_snd] at h
      injection h with h2
      subst h2
      simp only [purchase_water, if_neg h0, finalize_purchase_stats,
        finalize_purchase_transactions, calculate_discount_user_id]
      simp
    | Digital =>
      by_cases hp : is_pass_valid st.user now = true
      · simp only [purchase_water, if_neg h0] at h ⊢
        rw [if_pos hp] at h ⊢
        split at h
        · simp at h
        · rename_i hnw
          rw [finalize_purchase_snd] at h
          injection h with h2
          subst h2
          rw [if_neg hnw]
          simp only [finalize_purchase_stats, finalize_purchase_transactions]
          simp
      · simp only [purchase_water, if_neg h0, if_neg hp] at h ⊢
        split at h
        · simp at h
        · rename_i hnw
          rw [finalize_purchase_snd] at h
          injection h with h2
          subst h2
          rw [if_neg hnw]
          simp only [finalize_purchase_stats, finalize_purchase_transactions,
            calculate_discount_user_id]
          simp

/-- The analytics agree with the ledger and the ledger length matches the
number of counted purchases. -/
def ledger_inv (st : AtmState) : Prop :=
  ledger_consistent st ∧ st.transactions.length = purchase_count st

theorem ledger_inv_initial (uid : ℤ) (student : Bool) :
    ledger_inv (initial_state uid student) :=
  ⟨⟨rfl, rfl, rfl, rfl, rfl⟩, rfl⟩

theorem ledger_inv_step (st : AtmState) (liters : ℚ) (m : PaymentMethod)
    (now : ℤ) (hinv : ledger_inv st)
    (hlen : st.transactions.length < MAX_TRANSACTIONS) :
    ledger_inv (purchase_water st liters m now).1 := by
  obtain ⟨⟨hrev, hfee, hdis, hcash, hdig⟩, hcnt⟩ := hinv
  cases hx : (purchase_water st liters m now).2 with
  | error e =>
    obtain ⟨hs, ht⟩ := purchase_water_err_frame st liters m now e hx
    refine ⟨⟨?_, ?_, ?_, ?_, ?_⟩, ?_⟩
    · rw [hs, ht]; exact hrev
    · rw [hs, ht]; exact hfee
    · rw [hs, ht]; exact hdis
    · rw [hs, ht]; exact hcash
    · rw [hs, ht]; exact hdig
    · unfold purchase_count
      rw [hs, ht]
      exact hcnt
  | ok r =>
    obtain ⟨srev, sfee, sdis, scash, sdig, str⟩ :=
      purchase_water_ok_spec st liters m now r hx
    rw [if_neg (not_le.mpr hlen)] at str
    refine ⟨⟨?_, ?_, ?_, ?_, ?_⟩, ?_⟩
    · rw [srev, str, ledger_revenue_append, hrev]
    · rw [sfee, str, ledger_fees_append, hfee]
    · rw [sdis, str, ledger_discounts_append, hdis]
    · rw [scash, str, ledger_method_count_append, hcash]
    · rw [sdig, str, ledger_method_count_append, hdig]
    · unfold purchase_count
      rw [str, scash, sdig, List.length_append]
      unfold purchase_count at hcnt
      cases m <;> simp <;> omega

theorem purchase_count_step_le (st : AtmState) (liters : ℚ)
    (m : PaymentMethod) (now : ℤ) :
    purchase_count st ≤ purchase_count (purchase_water st liters m now).1 := by
  cases hx : (purchase_water st liters m now).2 with
  | error e =>
    obtain ⟨hs, -⟩ := purchase_water_err_frame st liters m now e hx
    unfold purchase_count
    rw [hs]
  | ok r =>
    obtain ⟨-, -, -, scash, sdig, -⟩ :=
      purchase_water_ok_spec st liters m now r hx
    unfold purchase_count
    rw [scash, sdig]
    cases m <;> simp

theorem purchase_count_run_le (reqs : List PurchaseRequest) (st : AtmState) :
    purchase_count st ≤ purchase_count (run_purchases st reqs) := by
  induction reqs generalizing st with
  | nil => exact le_refl _
  | cons r rs ih =>
    simp only [run_purchases]
    exact le_trans (purchase_count_step_le st r.liters r.method r.now)
      (ih (purchase_water st r.liters r.method r.now).1)

theorem purchase_count_ok (st : AtmState) (liters : ℚ) (m : PaymentMethod)
    (now : ℤ) (r : Receipt)
    (h : (purchase_water st liters m now).2 = Except.ok r) :
    purchase_count (purchase_water st liters m now).1 =
      purchase_count st + 1 := by
  obtain ⟨-, -, -, scash, sdig, -⟩ := purchase_water_ok_spec st liters m now r h
  unfold purchase_count
  rw [scash, sdig]
  cases m <;> simp <;> omega

theorem ledger_inv_run (reqs : List PurchaseRequest) (st : AtmState)
    (hinv : ledger_inv st)
    (hbound : purchase_count (run_purchases st reqs) ≤ MAX_TRANSACTIONS) :
    ledger_inv (run_purchases st reqs) := by
  induction reqs generalizing st with
  | nil => exact hinv
  | cons r rs ih =>
    simp only [run_purchases] at hbound ⊢
    cases hx : (purchase_water st r.liters r.method r.now).2 with
    | error e =>
      obtain ⟨hs, ht⟩ := purchase_water_err_frame st r.liters r.method r.now e hx
      refine ih _ ?_ hbound
      obtain ⟨⟨h1, h2, h3, h4, h5⟩, h6⟩ := hinv
      refine ⟨⟨?_, ?_, ?_, ?_, ?_⟩, ?_⟩
      · rw [hs, ht]; exact h1
      · rw [hs, ht]; exact h2
      · rw [hs, ht]; exact h3
      · rw [hs, ht]; exact h4
      · rw [hs, ht]; exact h5
      · unfold purchase_count
        rw [hs, ht]
        exact h6
    | ok r2 =>
      have hcnt1 : purchase_count (purchase_water st r.liters r.method r.now).1 =
          purchase_count st + 1 :=
        purchase_count_ok st r.liters r.method r.now r2 hx
      have hle : purchase_count (purchase_water st r.liters r.method r.now).1 ≤
          MAX_TRANSACTIONS :=
        le_trans (purchase_count_run_le rs _) hbound
      have hlen : st.transactions.length < MAX_TRANSACTIONS := by
        have h6 := hinv.2
        omega
      exact ih _ (ledger_inv_step st r.liters r.method r.now hinv hlen) hbound

/-- Claim C3 (amended): after any sequence of purchase requests from the
initial state, the incrementally maintained analytics equal the fold over
the transaction ledger — revenue as the sum of per-record base costs
(liters times 2.00), fees and discounts as the sums of the recorded
fields, and the cash/digital counters as the per-method record counts —
provided the number of successful purchases has not exceeded the ledger
capacity MAX_TRANSACTIONS = 5000. -/
theorem atm_C3_amended (uid : ℤ) (student : Bool)
    (reqs : List PurchaseRequest)
    (h : purchase_count (run_purchases (initial_state uid student) reqs) ≤
      MAX_TRANSACTIONS) :
    ledger_consistent (run_purchases (initial_state uid student) reqs) :=
  (ledger_inv_run reqs (initial_state uid student)
    (ledger_inv_initial uid student) h).1

/-- Witness for C3 (amended): a single 1-liter cash purchase. -/
theorem atm_C3_amended_witness :
    purchase_count (run_purchases (initial_state 5 false)
      [{ liters := 1, method := PaymentMethod.Cash, now := 0 }]) ≤
      MAX_TRANSACTIONS ∧
    ledger_consistent (run_purchases (initial_state 5 false)
      [{ liters := 1, method := PaymentMethod.Cash, now := 0 }]) := by
  have h : purchase_count (run_purchases (initial_state 5 false)
      [{ liters := 1, method := PaymentMethod.Cash, now := 0 }]) ≤
      MAX_TRANSACTIONS := by
    norm_num [run_purchases, purchase_water, purchase_count, initial_state,
      fresh_user, initial_stats, calculate_discount, calculate_bulk_discount,
      calculate_loyalty_discount, finalize_purchase, save_transaction,
      update_loyalty_points, truncToInt, MAX_TRANSACTIONS,
      WATER_PRICE_PER_LITER, MIN_BULK_LITERS, LOYALTY_THRESHOLD]
  exact ⟨h, atm_C3_amended 5 false _ h⟩

theorem cash_step_snd (st : AtmState) (liters : ℚ) (now : ℤ)
    (h0 : 0 < liters) :
    (purchase_water st liters PaymentMethod.Cash now).2 =
      Except.ok
        { base_cost := liters * WATER_PRICE_PER_LITER
          discount := (calculate_discount st.user liters).1
          fee := 0
          final_amount :=
            liters * WATER_PRICE_PER_LITER -
              (calculate_discount st.user liters).1 } := by
  simp only [purchase_water, if_neg (not_le.mpr h0), finalize_purchase_snd]

theorem cash_run_ok_true (n : ℕ) (st : AtmState) :
    cash_run_ok n st = true := by
  induction n generalizing st with
  | zero => rfl
  | succ k ih =>
    unfold cash_run_ok purchase_ok
    rw [cash_step_snd st 1 0 one_pos, ih]
    rfl

theorem iterate_cash_revenue (n : ℕ) (st : AtmState) :
    (iterate_cash n st).stats.total_revenue =
      st.stats.total_revenue + 2 * n := by
  induction n generalizing st with
  | zero => simp [iterate_cash]
  | succ k ih =>
    simp only [iterate_cash]
    rw [ih]
    have hrev := (purchase_water_ok_spec st 1 PaymentMethod.Cash 0 _
      (cash_step_snd st 1 0 one_pos)).1
    rw [hrev]
    simp only [WATER_PRICE_PER_LITER]
    push_cast
    ring

theorem iterate_cash_length (n : ℕ) (st : AtmState)
    (h : st.transactions.length ≤ MAX_TRANSACTIONS) :
    (iterate_cash n st).transactions.length =
      min (st.transactions.length + n) MAX_TRANSACTIONS := by
  induction n generalizing st with
  | zero =>
    simp only [iterate_cash]
    omega
  | succ k ih =>
    simp only [iterate_cash]
    have htr := (purchase_water_ok_spec st 1 PaymentMethod.Cash 0 _
      (cash_step_snd st 1 0 one_pos)).2.2.2.2.2
    by_cases hc : st.transactions.length ≥ MAX_TRANSACTIONS
    · rw [if_pos hc] at htr
      rw [ih _ (by rw [htr]; exact h), htr]
      omega
    · rw [if_neg hc] at htr
      rw [ih _ (by rw [htr]; simp; omega), htr]
      simp only [List.length_append, List.length_singleton]
      omega

theorem iterate_cash_ledger_revenue (n : ℕ) (st : AtmState)
    (h : st.transactions.length ≤ MAX_TRANSACTIONS) :
    ledger_revenue (iterate_cash n st).transactions =
      ledger_revenue st.transactions +
        2 * ((min (st.transactions.length + n) MAX_TRANSACTIONS -
          st.transactions.length : ℕ) : ℚ) := by
  induction n generalizing st with
  | zero =>
    simp only [iterate_cash]
    have hz : min (st.transactions.length + 0) MAX_TRANSACTIONS -
        st.transactions.length = 0 := by omega
    rw [hz]
    simp
  | succ k ih =>
    simp only [iterate_cash]
    have htr := (purchase_water_ok_spec st 1 PaymentMethod.Cash 0 _
      (cash_step_snd st 1 0 one_pos)).2.2.2.2.2
    by_cases hc : st.transactions.length ≥ MAX_TRANSACTIONS
    · rw [if_pos hc] at htr
      rw [ih _ (by rw [htr]; exact h), htr]
      have hz : ∀ j : ℕ, min (st.transactions.length + j) MAX_TRANSACTIONS -
          st.transactions.length = 0 := by
        intro j
        omega
      rw [hz, hz]
    · rw [if_neg hc] at htr
      rw [ih _ (by rw [htr]; simp; omega), htr, ledger_revenue_append]
      simp only [List.length_append, List.length_singleton]
      have harith : min (st.transactions.length + 1 + k) MAX_TRANSACTIONS -
          (st.transactions.length + 1) + 1 =
          min (st.transactions.length + (k + 1)) MAX_TRANSACTIONS -
            st.transactions.length := by omega
      rw [← harith]
      simp only [WATER_PRICE_PER_LITER]
      push_cast
      ring

/-- Counterexample to claim C3 as stated: after 5001 successful 1-liter
cash purchases from the initial state, the incremental totalRevenue is
10002 but folding the full (capacity-capped) ledger yields only 10000, so
the analytics and the ledger fold disagree. -/
theorem atm_C3_counterexample :
    cash_run_ok 5001 (initial_state 6 false) = true ∧
    (iterate_cash 5001 (initial_state 6 false)).stats.total_revenue = 10002 ∧
    ledger_revenue
      (iterate_cash 5001 (initial_state 6 false)).transactions = 10000 ∧
    ¬ ledger_consistent (iterate_cash 5001 (initial_state 6 false)) := by
  have h1 : (iterate_cash 5001 (initial_state 6 false)).stats.total_revenue =
      10002 := by
    rw [iterate_cash_revenue]
    norm_num [initial_state, initial_stats]
  have h2 : ledger_revenue
      (iterate_cash 5001 (initial_state 6 false)).transactions = 10000 := by
    rw [iterate_cash_ledger_revenue 5001 (initial_state 6 false)
      (by norm_num [initial_state])]
    norm_num [initial_state, initial_stats, ledger_revenue, MAX_TRANSACTIONS]
  refine ⟨cash_run_ok_true 5001 (initial_state 6 false), h1, h2, ?_⟩
  intro hc
  have hcon := hc.1
  rw [h1, h2] at hcon
  norm_num at hcon

end WaterATM
